import Mathlib

/-!
Shallow embedding of `src/dialogflow-fulfillment-client.ts`, the single
source file of the repository: the `WebhookClient` class wrapping a
Dialogflow webhook request/response exchange.

Modelling notes (JavaScript semantics made explicit):

* JavaScript arrays are mutable reference values. The constructor assigns
  the very array objects found at `request.body.queryResult.fulfillmentMessages`
  and `request.body.queryResult.outputContexts` into `webhookResponseBody`,
  so a `push` performed through `webhookResponseBody` is visible through the
  request-side getters as well.  The only statements in the class that
  assign an array reference are the constructor (creating the alias) and
  `clearFulfillments` / `clearContexts` (replacing the response-side
  reference with a fresh empty array, which breaks the alias).  The alias
  relation is therefore fully described by one boolean per array; the state
  below tracks the current contents of the request-side and response-side
  arrays together with those booleans, kept in lock step.
* Optional chaining `a?.b` is modelled by `Option.bind`; the `?? null`
  fallback of the getters makes every getter return an `Option`, with
  `none` as the null sentinel.
* `await` inside `handleRequest` sequences the caller-supplied handler
  before `response.send`; in the embedding a handler is a state transformer
  that may fail (a thrown error or a rejected promise), and the payload
  handed to the delivery capability is computed from the post-handler
  state, which is exactly the happens-after guarantee of the `await`.
* Values the adapter never inspects (protobuf `Struct` parameters,
  `diagnosticInfo`, `originalDetectIntentRequest`, the numeric detection
  confidence) are modelled by uninterpreted identifiers; the adapter only
  projects them.
-/

/-- An intent record; the adapter reads only its `displayName`. -/
structure Intent where
  displayName : Option String
deriving DecidableEq

/-- One fulfillment-message variant.  `add` only ever pushes the text
variant wrapping a list of strings; inbound payloads may carry other
variants, modelled by an uninterpreted tag. -/
inductive Message where
  | text (text : List String)
  | other (tag : Nat)
deriving DecidableEq

/-- A conversation context record. -/
structure Context where
  name : String
  lifespanCount : Nat
deriving DecidableEq

/-- The `queryResult` field of a webhook request.  Every field is optional:
the inbound payload is externally produced and the code tolerates absence
at every level. -/
structure QueryResult where
  queryText : Option String
  parameters : Option Nat
  allRequiredParamsPresent : Option Bool
  fulfillmentText : Option String
  fulfillmentMessages : Option (List Message)
  outputContexts : Option (List Context)
  intent : Option Intent
  intentDetectionConfidence : Option Int
  diagnosticInfo : Option Nat
  languageCode : Option String
deriving DecidableEq

/-- The parsed webhook request body (`request.body`). -/
structure WebhookRequest where
  responseId : Option String
  session : Option String
  queryResult : Option QueryResult
  originalDetectIntentRequest : Option Nat
deriving DecidableEq

/-- The webhook response body accumulated by the adapter and eventually
handed to `response.send`.  It starts as `\x7b\x7d`; the constructor then sets
both fields (possibly to `undefined`, i.e. `none`). -/
structure WebhookResponse where
  fulfillmentMessages : Option (List Message)
  outputContexts : Option (List Context)
deriving DecidableEq

/-- The state of one `WebhookClient` instance.

`webhookRequestBody` holds the scalar part of the inbound body; the
contents of the two arrays reachable from its `queryResult` are tracked by
`reqFulfillmentMessages` / `reqOutputContexts`, because pushes through the
aliased response-side references mutate them.  `respFulfillmentMessages` /
`respOutputContexts` are the arrays referenced by `webhookResponseBody`.
`fmAliased` / `ocAliased` record whether the response-side reference still
is the request-side array object (true from construction until the
corresponding clear operation). -/
structure WebhookClient where
  webhookRequestBody : WebhookRequest
  reqFulfillmentMessages : Option (List Message)
  reqOutputContexts : Option (List Context)
  respFulfillmentMessages : Option (List Message)
  respOutputContexts : Option (List Context)
  fmAliased : Bool
  ocAliased : Bool
deriving DecidableEq

namespace WebhookClient

/-- The constructor: stores the body and performs
`webhookResponseBody.fulfillmentMessages = webhookRequestBody.queryResult?.fulfillmentMessages`
and the analogous assignment for `outputContexts`.  These are reference
copies of the inbound arrays, recorded by the alias flags. -/
def construct (body : WebhookRequest) : WebhookClient :=
  { webhookRequestBody := body
    reqFulfillmentMessages := body.queryResult.bind (fun qr => qr.fulfillmentMessages)
    reqOutputContexts := body.queryResult.bind (fun qr => qr.outputContexts)
    respFulfillmentMessages := body.queryResult.bind (fun qr => qr.fulfillmentMessages)
    respOutputContexts := body.queryResult.bind (fun qr => qr.outputContexts)
    fmAliased := true
    ocAliased := true }

/-- Getter `responseId`: `webhookRequestBody?.responseId ?? null`. -/
def responseId (st : WebhookClient) : Option String :=
  st.webhookRequestBody.responseId

/-- Getter `session`: `webhookRequestBody?.session ?? null`. -/
def session (st : WebhookClient) : Option String :=
  st.webhookRequestBody.session

/-- Getter `query`: `webhookRequestBody?.queryResult?.queryText ?? null`. -/
def query (st : WebhookClient) : Option String :=
  st.webhookRequestBody.queryResult.bind (fun qr => qr.queryText)

/-- Getter `parameters`. -/
def parameters (st : WebhookClient) : Option Nat :=
  st.webhookRequestBody.queryResult.bind (fun qr => qr.parameters)

/-- Getter `allRequiredParamsPresent`. -/
def allRequiredParamsPresent (st : WebhookClient) : Option Bool :=
  st.webhookRequestBody.queryResult.bind (fun qr => qr.allRequiredParamsPresent)

/-- Getter `fulfillmentText`. -/
def fulfillmentText (st : WebhookClient) : Option String :=
  st.webhookRequestBody.queryResult.bind (fun qr => qr.fulfillmentText)

/-- Getter `fulfillmentMessages`:
`webhookRequestBody?.queryResult?.fulfillmentMessages ?? null`.  The chain
ends at the request-side array object, whose current contents are
`reqFulfillmentMessages`. -/
def fulfillmentMessages (st : WebhookClient) : Option (List Message) :=
  match st.webhookRequestBody.queryResult with
  | none => none
  | some _ => st.reqFulfillmentMessages

/-- Getter `outputContexts`: ends at the request-side context array, whose
current contents are `reqOutputContexts`. -/
def outputContexts (st : WebhookClient) : Option (List Context) :=
  match st.webhookRequestBody.queryResult with
  | none => none
  | some _ => st.reqOutputContexts

/-- Getter `intent`. -/
def intent (st : WebhookClient) : Option Intent :=
  st.webhookRequestBody.queryResult.bind (fun qr => qr.intent)

/-- Getter `intentDetectionConfidence`. -/
def intentDetectionConfidence (st : WebhookClient) : Option Int :=
  st.webhookRequestBody.queryResult.bind (fun qr => qr.intentDetectionConfidence)

/-- Getter `diagnosticInfo`. -/
def diagnosticInfo (st : WebhookClient) : Option Nat :=
  st.webhookRequestBody.queryResult.bind (fun qr => qr.diagnosticInfo)

/-- Getter `languageCode`. -/
def languageCode (st : WebhookClient) : Option String :=
  st.webhookRequestBody.queryResult.bind (fun qr => qr.languageCode)

/-- Getter `originalDetectIntentRequest`. -/
def originalDetectIntentRequest (st : WebhookClient) : Option Nat :=
  st.webhookRequestBody.originalDetectIntentRequest

end WebhookClient

/-- A runtime value passed to `add`.  The TypeScript signature is
`string | string[]`; `other` stands for any further JavaScript value an
untyped caller may pass that is neither a string nor an array and has no
positive numeric `length` property (numbers, booleans, null, undefined,
plain objects) — the values the specification calls malformed arguments. -/
inductive AddArg where
  | str (s : String)
  | arr (l : List String)
  | other
deriving DecidableEq

namespace WebhookClient

/-- `isStringArray(obj)`: `obj?.length > 0`.  JavaScript strings also have
a `length` property; values covered by `AddArg.other` have none, so the
optional chain yields `undefined` and the comparison is false. -/
def isStringArray (a : AddArg) : Bool :=
  match a with
  | AddArg.str s => decide (0 < s.length)
  | AddArg.arr l => decide (0 < l.length)
  | AddArg.other => false

/-- The message variant pushed by `add`: text.text = [s]. -/
def textMessage (s : String) : Message :=
  Message.text [s]

/-- `webhookResponseBody.fulfillmentMessages?.push(m)` for each message in
order: appends to the response-side array when it exists (the optional
chain makes the push a no-op on `undefined`), and — since the push mutates
the array object itself — the request-side contents change in lock step
while the alias holds. -/
def pushMessages (st : WebhookClient) (msgs : List Message) : WebhookClient :=
  match st.respFulfillmentMessages with
  | none => st
  | some l =>
    { st with
      respFulfillmentMessages := some (l ++ msgs)
      reqFulfillmentMessages :=
        if st.fmAliased then some (l ++ msgs) else st.reqFulfillmentMessages }

/-- `add(response)`: a string pushes one text variant; otherwise, when
`isStringArray` holds, the for-of loop pushes one text variant per element
in order; otherwise the call falls through both branches and does
nothing. -/
def add (st : WebhookClient) (response : AddArg) : WebhookClient :=
  match response with
  | AddArg.str s => st.pushMessages [textMessage s]
  | a =>
    if isStringArray a then
      match a with
      | AddArg.arr l => st.pushMessages (l.map textMessage)
      | _ => st
    else st

/-- `clearFulfillments()`: assigns a fresh empty array to
`webhookResponseBody.fulfillmentMessages`, breaking the alias with the
request-side array. -/
def clearFulfillments (st : WebhookClient) : WebhookClient :=
  { st with respFulfillmentMessages := some [], fmAliased := false }

end WebhookClient

/-- A runtime value passed to `addContext`: either an instance of the
protobuf `Context` class (the `instanceof` test succeeds) or an array of
context records (the `instanceof` test fails and the value is spread into
`push`). -/
inductive ContextArg where
  | single (c : Context)
  | list (l : List Context)
deriving DecidableEq

namespace WebhookClient

/-- `addContext(context)`: pushes onto `webhookResponseBody.outputContexts`
without optional chaining — when that field is `undefined` the member
access throws a TypeError (modelled by `none`) before any mutation.  When
the array exists, a single `Context` instance is pushed as one element and
an array argument is spread element by element, preserving order; while
the alias holds the request-side contents change in lock step. -/
def addContext (st : WebhookClient) (context : ContextArg) : Option WebhookClient :=
  match st.respOutputContexts with
  | none => none
  | some l =>
    let items := match context with
      | ContextArg.single c => [c]
      | ContextArg.list cs => cs
    some
      { st with
        respOutputContexts := some (l ++ items)
        reqOutputContexts :=
          if st.ocAliased then some (l ++ items) else st.reqOutputContexts }

/-- `clearContexts()`: assigns a fresh empty array to
`webhookResponseBody.outputContexts`, breaking the alias with the
request-side array. -/
def clearContexts (st : WebhookClient) : WebhookClient :=
  { st with respOutputContexts := some [], ocAliased := false }

/-- The object handed to `response.send`: the current
`webhookResponseBody`. -/
def responseBody (st : WebhookClient) : WebhookResponse :=
  { fulfillmentMessages := st.respFulfillmentMessages
    outputContexts := st.respOutputContexts }

end WebhookClient

/-- An error surfacing out of `handleRequest`: invoking a value that is
not a function (the lookup produced `undefined`), a member access on
`undefined`, or an error/rejection raised by the caller-supplied
handler. -/
inductive JsError where
  | typeError
  | handlerFailure
deriving DecidableEq

/-- A caller-supplied intent handler: receives the adapter instance,
mutates it through the public operations, and settles either successfully
with the mutated instance or with an error/rejection.  `await` collapses
synchronous and asynchronous handlers into this one shape. -/
def Handler : Type :=
  WebhookClient → Except JsError WebhookClient

/-- The observable outcome of `handleRequest`: how the returned promise
settles, and the trace of invocations of the delivery capability
`response.send` (each entry the payload it was invoked with). -/
structure HandleOutcome where
  result : Except JsError WebhookClient
  sends : List WebhookResponse

namespace WebhookClient

/-- The property key used for the handler lookup:
`webhookRequestBody?.queryResult?.intent?.displayName`.  When the chain
yields `undefined`, JavaScript property access coerces the key to the
string "undefined". -/
def intentKey (st : WebhookClient) : String :=
  match st.webhookRequestBody.queryResult with
  | none => "undefined"
  | some qr =>
    match qr.intent with
    | none => "undefined"
    | some i => i.displayName.getD "undefined"

/-- `handleRequest(intentMap)`: looks up the handler under the detected
intent display name with no prior validation; a missing key yields
`undefined`, and invoking `undefined` throws a TypeError before any send.
Otherwise the handler is invoked with the adapter and awaited; if it
settles with an error the rejection propagates and no send occurs; if it
settles successfully, `response.send(webhookResponseBody)` runs exactly
once with the payload serialized from the post-handler state. -/
def handleRequest (st : WebhookClient) (intentMap : List (String × Handler)) :
    HandleOutcome :=
  match intentMap.lookup st.intentKey with
  | none => { result := Except.error JsError.typeError, sends := [] }
  | some h =>
    match h st with
    | Except.error e => { result := Except.error e, sends := [] }
    | Except.ok st' => { result := Except.ok st', sends := [st'.responseBody] }

end WebhookClient

/-- One call to a mutation operation of the adapter.  For `addContext` the
thrown TypeError leaves the state unchanged (the member access fails
before any mutation), so as a state transformer the throwing call is the
identity. -/
inductive Mutation where
  | addM (a : AddArg)
  | addContextM (c : ContextArg)
  | clearFulfillmentsM
  | clearContextsM

/-- Apply one mutation call to the adapter state. -/
def applyMutation (st : WebhookClient) (m : Mutation) : WebhookClient :=
  match m with
  | Mutation.addM a => st.add a
  | Mutation.addContextM c => (st.addContext c).getD st
  | Mutation.clearFulfillmentsM => st.clearFulfillments
  | Mutation.clearContextsM => st.clearContexts

/-- Apply a sequence of mutation calls in order. -/
def applyMutations (st : WebhookClient) (ms : List Mutation) : WebhookClient :=
  ms.foldl applyMutation st

/-! Concrete inputs used by witnesses and counterexamples. -/

/-- An inbound body with every optional field absent. -/
def emptyBody : WebhookRequest :=
  { responseId := none, session := none, queryResult := none
    originalDetectIntentRequest := none }

/-- A populated query result whose echoed message and context arrays are
present (and empty), with detected intent display name "Start". -/
def demoQueryResult : QueryResult :=
  { queryText := some "hi", parameters := none
    allRequiredParamsPresent := none, fulfillmentText := none
    fulfillmentMessages := some [], outputContexts := some []
    intent := some { displayName := some "Start" }
    intentDetectionConfidence := none, diagnosticInfo := none
    languageCode := none }

/-- A populated inbound body carrying `demoQueryResult`. -/
def demoBody : WebhookRequest :=
  { responseId := some "r1", session := some "s1"
    queryResult := some demoQueryResult
    originalDetectIntentRequest := none }

/-- A handler that adds the single string "Welcome". -/
def demoHandler : Handler :=
  fun ag => Except.ok (ag.add (AddArg.str "Welcome"))

/-- An intent map with the single key "Start". -/
def demoMap : List (String × Handler) :=
  [("Start", demoHandler)]

/-! Shared helper lemmas. -/

/-- `pushMessages` touches only the message arrays and the alias flag; the
stored request body is untouched. -/
theorem pushMessages_requestBody (st : WebhookClient) (msgs : List Message) :
    (st.pushMessages msgs).webhookRequestBody = st.webhookRequestBody := by
  unfold WebhookClient.pushMessages
  split <;> rfl

/-- `add` never changes the stored request body. -/
theorem add_requestBody (st : WebhookClient) (a : AddArg) :
    (st.add a).webhookRequestBody = st.webhookRequestBody := by
  cases a with
  | str s => exact pushMessages_requestBody st [WebhookClient.textMessage s]
  | arr l =>
    simp only [WebhookClient.add]
    split
    · exact pushMessages_requestBody st (l.map WebhookClient.textMessage)
    · rfl
  | other =>
    simp only [WebhookClient.add, WebhookClient.isStringArray]
    rfl

/-- `addContext`, viewed as a state transformer in which the thrown
TypeError leaves the state unchanged, never changes the stored request
body. -/
theorem addContext_requestBody (st : WebhookClient) (c : ContextArg) :
    ((st.addContext c).getD st).webhookRequestBody = st.webhookRequestBody := by
  unfold WebhookClient.addContext
  split <;> rfl

/-- One mutation call never changes the stored request body. -/
theorem applyMutation_requestBody (st : WebhookClient) (m : Mutation) :
    (applyMutation st m).webhookRequestBody = st.webhookRequestBody := by
  cases m with
  | addM a => exact add_requestBody st a
  | addContextM c => exact addContext_requestBody st c
  | clearFulfillmentsM => rfl
  | clearContextsM => rfl

/-- No sequence of mutation calls changes the stored request body. -/
theorem applyMutations_requestBody (ms : List Mutation) (st : WebhookClient) :
    (applyMutations st ms).webhookRequestBody = st.webhookRequestBody := by
  induction ms generalizing st with
  | nil => rfl
  | cons m ms ih =>
    have h1 : applyMutations st (m :: ms) = applyMutations (applyMutation st m) ms := rfl
    rw [h1, ih, applyMutation_requestBody]

/-- When the response-side message array is `undefined`, every `add` call
is the identity on the whole state. -/
theorem add_of_respFM_none (st : WebhookClient)
    (h : st.respFulfillmentMessages = none) (a : AddArg) : st.add a = st := by
  cases a with
  | str s => simp [WebhookClient.add, WebhookClient.pushMessages, h]
  | arr l =>
    simp only [WebhookClient.add]
    split
    · simp [WebhookClient.pushMessages, h]
    · rfl
  | other =>
    simp only [WebhookClient.add, WebhookClient.isStringArray]
    rfl

/-! Claim theorems. -/

/-- Claim C1: when the intent map contains the detected intent display
name and the handler settles successfully, `handleRequest` invokes the
delivery capability exactly once, with the payload serialized from the
post-handler state (so every mutation the handler performed is reflected,
and the send happens only after the handler settles). -/
theorem handleRequest_sends_once (st : WebhookClient) (m : List (String × Handler))
    (h : Handler) (st' : WebhookClient)
    (hm : m.lookup st.intentKey = some h) (hh : h st = Except.ok st') :
    (st.handleRequest m).sends = [st'.responseBody] ∧
    (st.handleRequest m).result = Except.ok st' := by
  simp [WebhookClient.handleRequest, hm, hh]

/-- Claim C1 witness: the end-to-end "Start" scenario delivers exactly one
payload whose fulfillment messages are the Welcome text variant. -/
theorem handleRequest_sends_once_witness :
    ((WebhookClient.construct demoBody).handleRequest demoMap).sends =
      [WebhookClient.responseBody
        ((WebhookClient.construct demoBody).add (AddArg.str "Welcome"))] ∧
    ((WebhookClient.construct demoBody).handleRequest demoMap).sends =
      [{ fulfillmentMessages := some [Message.text ["Welcome"]]
         outputContexts := some [] }] := by
  have h := handleRequest_sends_once (WebhookClient.construct demoBody) demoMap
    demoHandler ((WebhookClient.construct demoBody).add (AddArg.str "Welcome"))
    rfl rfl
  refine ⟨h.1, ?_⟩
  rw [h.1]
  decide

/-- Claim C2: when the intent map has no entry for the detected intent
display name, the lookup yields undefined, invoking it throws a TypeError
that propagates out of `handleRequest`, and the delivery capability is
never invoked. -/
theorem handleRequest_unmatched (st : WebhookClient) (m : List (String × Handler))
    (h : m.lookup st.intentKey = none) :
    (st.handleRequest m).result = Except.error JsError.typeError ∧
    (st.handleRequest m).sends = [] := by
  simp [WebhookClient.handleRequest, h]

/-- Claim C2 witness: the "Start" request against an empty map rejects and
sends nothing. -/
theorem handleRequest_unmatched_witness :
    ((WebhookClient.construct demoBody).handleRequest []).result =
      Except.error JsError.typeError ∧
    ((WebhookClient.construct demoBody).handleRequest []).sends = [] :=
  handleRequest_unmatched (WebhookClient.construct demoBody) [] rfl

/-- Claim C3: when the outbound fulfillment-message sequence exists,
`add` with a single string appends exactly one text variant after the
pre-existing messages, and `add` with a non-empty list of strings appends
one text variant per element, preserving order. -/
theorem add_appends_text (st : WebhookClient) (l : List Message)
    (h : st.respFulfillmentMessages = some l) (s : String) (l2 : List String)
    (h2 : l2 ≠ []) :
    (st.add (AddArg.str s)).respFulfillmentMessages =
      some (l ++ [Message.text [s]]) ∧
    (st.add (AddArg.arr l2)).respFulfillmentMessages =
      some (l ++ l2.map WebhookClient.textMessage) := by
  constructor
  · simp [WebhookClient.add, WebhookClient.pushMessages, h,
      WebhookClient.textMessage]
  · have hb : WebhookClient.isStringArray (AddArg.arr l2) = true := by
      simp [WebhookClient.isStringArray, List.length_pos]
      exact h2
    simp [WebhookClient.add, hb, WebhookClient.pushMessages, h]

/-- Claim C3 witness: adding "hello" to the freshly constructed demo
client appends one text variant; adding the pair a, b appends two in
order. -/
theorem add_appends_text_witness :
    ((WebhookClient.construct demoBody).add (AddArg.str "hello")).respFulfillmentMessages =
      some [Message.text ["hello"]] ∧
    ((WebhookClient.construct demoBody).add (AddArg.arr ["a", "b"])).respFulfillmentMessages =
      some [Message.text ["a"], Message.text ["b"]] := by
  have h := add_appends_text (WebhookClient.construct demoBody) [] rfl "hello"
    ["a", "b"] (by decide)
  simpa [WebhookClient.textMessage] using h

/-- Claim C4 counterexample: the claim that every read accessor returns
the same value before and after mutations fails.  The constructor copies
the array reference, so after `add("hello")` on the demo client the
request-side getter `fulfillmentMessages` reports the pushed message. -/
theorem fulfillmentMessages_not_pure :
    WebhookClient.fulfillmentMessages
        ((WebhookClient.construct demoBody).add (AddArg.str "hello")) ≠
      WebhookClient.fulfillmentMessages (WebhookClient.construct demoBody) := by
  decide

/-- Claim C4 amended: the stored inbound scalar state is immutable — every
read accessor other than `fulfillmentMessages` and `outputContexts`
returns the same value after any sequence of mutation calls as before.
The two array accessors are excluded because the constructor copies array
references, so mutations performed on the outbound payload before the
corresponding clear operation are visible through them. -/
theorem scalar_accessors_pure (ms : List Mutation) (st : WebhookClient) :
    (applyMutations st ms).responseId = st.responseId ∧
    (applyMutations st ms).session = st.session ∧
    (applyMutations st ms).query = st.query ∧
    (applyMutations st ms).parameters = st.parameters ∧
    (applyMutations st ms).allRequiredParamsPresent = st.allRequiredParamsPresent ∧
    (applyMutations st ms).fulfillmentText = st.fulfillmentText ∧
    (applyMutations st ms).intent = st.intent ∧
    (applyMutations st ms).intentDetectionConfidence = st.intentDetectionConfidence ∧
    (applyMutations st ms).diagnosticInfo = st.diagnosticInfo ∧
    (applyMutations st ms).languageCode = st.languageCode ∧
    (applyMutations st ms).originalDetectIntentRequest = st.originalDetectIntentRequest := by
  simp [WebhookClient.responseId, WebhookClient.session, WebhookClient.query,
    WebhookClient.parameters, WebhookClient.allRequiredParamsPresent,
    WebhookClient.fulfillmentText, WebhookClient.intent,
    WebhookClient.intentDetectionConfidence, WebhookClient.diagnosticInfo,
    WebhookClient.languageCode, WebhookClient.originalDetectIntentRequest,
    applyMutations_requestBody]

/-- Claim C5: construction seeds the outbound payload from the inbound
`queryResult` — the fulfillment messages and output contexts of the
response body start as the ones of the request (not as empty sequences),
and when `queryResult` is absent both outbound fields are absent. -/
theorem construct_seeds (body : WebhookRequest) :
    (body.queryResult = none →
      (WebhookClient.construct body).respFulfillmentMessages = none ∧
      (WebhookClient.construct body).respOutputContexts = none) ∧
    (∀ q, body.queryResult = some q →
      (WebhookClient.construct body).respFulfillmentMessages = q.fulfillmentMessages ∧
      (WebhookClient.construct body).respOutputContexts = q.outputContexts) := by
  constructor
  · intro h
    simp [WebhookClient.construct, h]
  · intro q h
    simp [WebhookClient.construct, h]

/-- Claim C5 witness: the populated demo body seeds the outbound arrays
with the echoed (empty) arrays, and the empty body seeds both fields as
absent. -/
theorem construct_seeds_witness :
    ((WebhookClient.construct demoBody).respFulfillmentMessages =
        demoQueryResult.fulfillmentMessages ∧
      (WebhookClient.construct demoBody).respOutputContexts =
        demoQueryResult.outputContexts) ∧
    ((WebhookClient.construct emptyBody).respFulfillmentMessages = none ∧
      (WebhookClient.construct emptyBody).respOutputContexts = none) :=
  ⟨(construct_seeds demoBody).2 demoQueryResult rfl,
    (construct_seeds emptyBody).1 rfl⟩

/-- Claim C6 counterexample: the claim quantifies over every adapter
state, but at the concrete state built from a body with no `queryResult`
the outbound context sequence is undefined, and `addContext` throws a
TypeError before appending anything — no appended state exists. -/
theorem addContext_not_total :
    (WebhookClient.construct emptyBody).addContext
      (ContextArg.single { name := "c", lifespanCount := 1 }) = none := by
  rfl

/-- Claim C6 amended: for every adapter state in which the outbound
context sequence exists, `addContext` with a single context record appends
exactly that record, and `addContext` with an ordered list of records
appends them all in order. -/
theorem addContext_appends (st : WebhookClient) (l : List Context)
    (h : st.respOutputContexts = some l) (c : Context) (cs : List Context) :
    (st.addContext (ContextArg.single c)).map WebhookClient.respOutputContexts =
      some (some (l ++ [c])) ∧
    (st.addContext (ContextArg.list cs)).map WebhookClient.respOutputContexts =
      some (some (l ++ cs)) := by
  simp [WebhookClient.addContext, h]

/-- Claim C6 amended witness: on the demo client (whose outbound context
array exists and is empty) a single record appends one element and a pair
appends two in order. -/
theorem addContext_appends_witness :
    ((WebhookClient.construct demoBody).addContext
        (ContextArg.single { name := "c1", lifespanCount := 1 })).map
        WebhookClient.respOutputContexts =
      some (some [{ name := "c1", lifespanCount := 1 }]) ∧
    ((WebhookClient.construct demoBody).addContext
        (ContextArg.list [{ name := "c1", lifespanCount := 1 },
          { name := "c2", lifespanCount := 2 }])).map
        WebhookClient.respOutputContexts =
      some (some [{ name := "c1", lifespanCount := 1 },
        { name := "c2", lifespanCount := 2 }]) := by
  have h := addContext_appends (WebhookClient.construct demoBody) [] rfl
    { name := "c1", lifespanCount := 1 }
    [{ name := "c1", lifespanCount := 1 }, { name := "c2", lifespanCount := 2 }]
  simpa using h

/-- Claim C7: for an inbound payload whose `queryResult` and top-level
optional fields are all absent, every one of the thirteen read accessors
returns the null sentinel; the accessors are total functions, so no error
is ever raised. -/
theorem getters_null_sentinel (body : WebhookRequest)
    (hq : body.queryResult = none) (hr : body.responseId = none)
    (hs : body.session = none) (ho : body.originalDetectIntentRequest = none) :
    (WebhookClient.construct body).responseId = none ∧
    (WebhookClient.construct body).session = none ∧
    (WebhookClient.construct body).query = none ∧
    (WebhookClient.construct body).parameters = none ∧
    (WebhookClient.construct body).allRequiredParamsPresent = none ∧
    (WebhookClient.construct body).fulfillmentText = none ∧
    (WebhookClient.construct body).fulfillmentMessages = none ∧
    (WebhookClient.construct body).outputContexts = none ∧
    (WebhookClient.construct body).intent = none ∧
    (WebhookClient.construct body).intentDetectionConfidence = none ∧
    (WebhookClient.construct body).diagnosticInfo = none ∧
    (WebhookClient.construct body).languageCode = none ∧
    (WebhookClient.construct body).originalDetectIntentRequest = none := by
  simp [WebhookClient.construct, WebhookClient.responseId, WebhookClient.session,
    WebhookClient.query, WebhookClient.parameters,
    WebhookClient.allRequiredParamsPresent, WebhookClient.fulfillmentText,
    WebhookClient.fulfillmentMessages, WebhookClient.outputContexts,
    WebhookClient.intent, WebhookClient.intentDetectionConfidence,
    WebhookClient.diagnosticInfo, WebhookClient.languageCode,
    WebhookClient.originalDetectIntentRequest, hq, hr, hs, ho]

/-- Claim C7 witness: the fully empty body yields the null sentinel from
every accessor. -/
theorem getters_null_sentinel_witness :
    (WebhookClient.construct emptyBody).responseId = none ∧
    (WebhookClient.construct emptyBody).session = none ∧
    (WebhookClient.construct emptyBody).query = none ∧
    (WebhookClient.construct emptyBody).parameters = none ∧
    (WebhookClient.construct emptyBody).allRequiredParamsPresent = none ∧
    (WebhookClient.construct emptyBody).fulfillmentText = none ∧
    (WebhookClient.construct emptyBody).fulfillmentMessages = none ∧
    (WebhookClient.construct emptyBody).outputContexts = none ∧
    (WebhookClient.construct emptyBody).intent = none ∧
    (WebhookClient.construct emptyBody).intentDetectionConfidence = none ∧
    (WebhookClient.construct emptyBody).diagnosticInfo = none ∧
    (WebhookClient.construct emptyBody).languageCode = none ∧
    (WebhookClient.construct emptyBody).originalDetectIntentRequest = none :=
  getters_null_sentinel emptyBody rfl rfl rfl rfl

/-- Claim C8: `add` applied to an empty array, or to a malformed value
that is neither a string nor an array (and has no positive length
property), leaves the entire adapter state unchanged; `add` is a total
function, so no error is raised. -/
theorem add_malformed_noop (st : WebhookClient) :
    st.add (AddArg.arr []) = st ∧ st.add AddArg.other = st := by
  constructor <;> rfl

/-- Claim C9: when the inbound `queryResult` lacks `fulfillmentMessages`
(as witnessed by the optional chain yielding `undefined`), the outbound
message field is `undefined`, every `add` call is silently a no-op, and
after `clearFulfillments` resets the field to an empty array, `add`
appends normally for both a single string and a non-empty list. -/
theorem add_noop_until_cleared (body : WebhookRequest)
    (h : body.queryResult.bind (fun qr => qr.fulfillmentMessages) = none) :
    (WebhookClient.construct body).respFulfillmentMessages = none ∧
    (∀ a, (WebhookClient.construct body).add a = WebhookClient.construct body) ∧
    (∀ s, ((WebhookClient.construct body).clearFulfillments.add
        (AddArg.str s)).respFulfillmentMessages = some [Message.text [s]]) ∧
    (∀ l, l ≠ [] → ((WebhookClient.construct body).clearFulfillments.add
        (AddArg.arr l)).respFulfillmentMessages =
        some (l.map WebhookClient.textMessage)) := by
  have hfm : (WebhookClient.construct body).respFulfillmentMessages = none := h
  refine ⟨hfm, fun a => add_of_respFM_none _ hfm a, fun s => ?_, fun l hl => ?_⟩
  · simp [WebhookClient.clearFulfillments, WebhookClient.add,
      WebhookClient.pushMessages, WebhookClient.textMessage]
  · have hb : WebhookClient.isStringArray (AddArg.arr l) = true := by
      simp [WebhookClient.isStringArray, List.length_pos]
      exact hl
    simp [WebhookClient.clearFulfillments, WebhookClient.add, hb,
      WebhookClient.pushMessages]

/-- Claim C9 witness: on the empty body, adding "hi" changes nothing,
while clearing first makes the same call append the text variant. -/
theorem add_noop_until_cleared_witness :
    (WebhookClient.construct emptyBody).add (AddArg.str "hi") =
      WebhookClient.construct emptyBody ∧
    ((WebhookClient.construct emptyBody).clearFulfillments.add
        (AddArg.str "hi")).respFulfillmentMessages =
      some [Message.text ["hi"]] ∧
    ((WebhookClient.construct emptyBody).clearFulfillments.add
        (AddArg.arr ["a", "b"])).respFulfillmentMessages =
      some [Message.text ["a"], Message.text ["b"]] := by
  have h := add_noop_until_cleared emptyBody rfl
  exact ⟨h.2.1 (AddArg.str "hi"), h.2.2.1 "hi",
    by simpa [WebhookClient.textMessage] using h.2.2.2 ["a", "b"] (by decide)⟩

/-- Claim C10: when the inbound payload lacks `queryResult` or its
`outputContexts`, the outbound context field is `undefined`; `addContext`
— single record or list — then throws a TypeError (push on undefined)
rather than silently doing nothing, while after `clearContexts` the same
call succeeds and appends. -/
theorem addContext_throws_until_cleared (body : WebhookRequest)
    (h : body.queryResult.bind (fun qr => qr.outputContexts) = none) :
    (WebhookClient.construct body).respOutputContexts = none ∧
    (∀ c, (WebhookClient.construct body).addContext c = none) ∧
    (∀ c, ((WebhookClient.construct body).clearContexts.addContext
        (ContextArg.single c)).map WebhookClient.respOutputContexts =
        some (some [c])) ∧
    (∀ cs, ((WebhookClient.construct body).clearContexts.addContext
        (ContextArg.list cs)).map WebhookClient.respOutputContexts =
        some (some cs)) := by
  have hoc : (WebhookClient.construct body).respOutputContexts = none := h
  refine ⟨hoc, fun c => ?_, fun c => ?_, fun cs => ?_⟩
  · simp [WebhookClient.addContext, hoc]
  · simp [WebhookClient.clearContexts, WebhookClient.addContext]
  · simp [WebhookClient.clearContexts, WebhookClient.addContext]

/-- Claim C10 witness: on the empty body, `addContext` throws for both
shapes of argument, and succeeds after `clearContexts`. -/
theorem addContext_throws_until_cleared_witness :
    (WebhookClient.construct emptyBody).addContext
        (ContextArg.single { name := "c1", lifespanCount := 1 }) = none ∧
    (WebhookClient.construct emptyBody).addContext
        (ContextArg.list [{ name := "c1", lifespanCount := 1 }]) = none ∧
    ((WebhookClient.construct emptyBody).clearContexts.addContext
        (ContextArg.single { name := "c1", lifespanCount := 1 })).map
        WebhookClient.respOutputContexts =
      some (some [{ name := "c1", lifespanCount := 1 }]) := by
  have h := addContext_throws_until_cleared emptyBody rfl
  exact ⟨h.2.1 (ContextArg.single { name := "c1", lifespanCount := 1 }),
    h.2.1 (ContextArg.list [{ name := "c1", lifespanCount := 1 }]),
    h.2.2.1 { name := "c1", lifespanCount := 1 }⟩
